import Mathlib

/-!
Verification of the environment-driven React Native Android build
orchestrator scripts `assembleConfig.js` and `BBai-android.js`.

Each script is embedded as a pure function from a `World` (the CLI
arguments together with the answers the filesystem and the subprocesses
would give) to a `Result` (process exit code, the ordered trace of
side-effect events, and the final working directory). The embedding
follows the JavaScript source line by line; JS string operations
(`toLowerCase`, `charAt(0).toUpperCase() + slice(1)`, `endsWith`,
`path.basename`, the `||` default idiom) are translated into explicit
Lean functions below.
-/

namespace RNBuild

/-- JS `s.toLowerCase()` restricted to the ASCII strings the scripts use. -/
def jsToLower (s : String) : String := String.mk (s.data.map Char.toLower)

/-- JS `s.endsWith(suffix)`. -/
def strEndsWith (s suffix : String) : Bool := suffix.data.isSuffixOf s.data

/-- JS `s.charAt(0).toUpperCase() + s.slice(1)` as used to build the
Gradle task name (`assembleConfig.js` lines 85-86, `BBai-android.js`
lines 99-100). -/
def capitalize (s : String) : String :=
  match s.data with
  | [] => ""
  | c :: cs => String.mk (Char.toUpper c :: cs)

/-- `path.basename` for slash-separated paths: the part after the last
slash. -/
def basename (p : String) : String :=
  String.mk ((p.data.reverse.takeWhile (fun c => c ≠ '/')).reverse)

/-- JS `a || b` for strings: `b` when `a` is falsy (the empty string,
which also stands for an absent `args[1]`). -/
def jsOrDefault (a b : String) : String := if a = "" then b else a

/-- JS truthiness of a possibly-undefined string, as tested by
`if (deployDir)` on the `process.env.BITRISE_DEPLOY_DIR` lookup at
`assembleConfig.js` line 118: false both for undefined (`none`) and
for a variable set to the empty string. -/
def jsTruthy : Option String → Bool
  | none => false
  | some s => if s = "" then false else true

/-- Constant `validEnvs` from both scripts. -/
def validEnvs : List String := ["dev", "uat", "prod"]

/-- Constant `validBuildTypes` from both scripts. -/
def validBuildTypes : List String := ["release", "debug"]

/-- Source line `const buildType = (args[1] OR default).toLowerCase()` with default `release`
(`assembleConfig.js` line 35, `BBai-android.js` line 43). An absent
`args[1]` is modelled as the empty string, which JS `||` treats the
same way as an explicit empty argument. -/
def buildTypeOf (args : List String) : String :=
  jsToLower (jsOrDefault (args.getD 1 "") "release")

/-- Source line `const isDev = (buildType == debug)` (the `--dev` bundler flag). -/
def isDevFlag (buildType : String) : Bool := buildType = "debug"

/-- The `react-native bundle` command string (whitespace normalized). -/
def bundleCmdOf (env buildType : String) : String :=
  "npx env-cmd -f .env." ++ env ++ " react-native bundle --platform android --dev "
    ++ (if isDevFlag buildType then "true" else "false")
    ++ " --entry-file index.js --bundle-output android/app/src/" ++ env
    ++ "/assets/index.android.bundle --assets-dest android/app/src/" ++ env ++ "/res"

/-- Source line the gradle wrapper choice: `gradlew.bat` on win32, `./gradlew` otherwise. -/
def gradleWrapper (isWin32 : Bool) : String :=
  if isWin32 then "gradlew.bat" else "./gradlew"

/-- The Gradle task name, `assemble` ++ capitalized environment ++
capitalized build type (`assembleConfig.js` line 87, `BBai-android.js`
line 101). -/
def assembleTaskOf (env buildType : String) : String :=
  "assemble" ++ capitalize env ++ capitalize buildType

/-- Path `path.join` of android, app, build, outputs, apk, env, buildType
(`assembleConfig.js` line 98). -/
def apkDirOf (env buildType : String) : String :=
  "android/app/build/outputs/apk/" ++ env ++ "/" ++ buildType

/-- The fixed APK path of `BBai-android.js` line 114 (relative to the
`android` directory the script has changed into). -/
def fixedApkPathOf (env buildType : String) : String :=
  "app/build/outputs/apk/" ++ env ++ "/" ++ buildType
    ++ "/redone-" ++ env ++ "-" ++ buildType ++ ".apk"

/-- One observable side effect of a script run, in program order.
`rmRf` and `mkdirP` are the shelljs filesystem mutations, `loadEnv` is
the `dotenv.config` process-environment mutation, `bundleExec`,
`gradleExec` and `adbInstall` are the three subprocess invocations,
`readDir` is `fs.readdirSync`, and `copyFile` is `shell.cp`. -/
inductive Event where
  | rmRf (p : String)
  | mkdirP (p : String)
  | loadEnv (p : String)
  | bundleExec (cmd : String)
  | gradleExec (cmd : String)
  | readDir (d : String)
  | copyFile (src dst : String)
  | adbInstall (apk : String)
  deriving DecidableEq, Repr

/-- The input of one script run: the CLI arguments (`process.argv`
after the script name) together with the answers the environment would
give to each query the script can make. -/
structure World where
  /-- Arguments `process.argv.slice(2)`. -/
  args : List String
  /-- Whether `os.platform()` equals win32. -/
  isWin32 : Bool
  /-- result of `shell.test` with flag -f on the .env file. -/
  envFileExists : Bool
  /-- exit code of the `react-native bundle` subprocess. -/
  bundleExit : Nat
  /-- exit code of the Gradle subprocess. -/
  gradleExit : Nat
  /-- result of `shell.test` with flag -d on apkDir (assembleConfig variant). -/
  apkDirExists : Bool
  /-- result of `fs.readdirSync(apkDir)` when the directory exists. -/
  apkDirFiles : List String
  /-- result of `fs.existsSync` on the selected APK candidate. -/
  apkFileExists : Bool
  /-- result of `shell.test` with flag -f on apkPath on the fixed path (BBai variant). -/
  fixedApkExists : Bool
  /-- Value of `process.env.BITRISE_DEPLOY_DIR`: `none` when unset. -/
  deployDir : Option String
  /-- exit code of `shell.cp`. -/
  cpExit : Nat
  /-- exit code of the `adb install -r` subprocess. -/
  adbExit : Nat
  deriving Repr

/-- The outcome of one script run: its exit code, the trace of
side-effect events in program order, and the working directory at
process end relative to the starting directory (`[]` is the starting
directory, `["android"]` is the native project subdirectory). -/
structure Result where
  exitCode : Nat
  events : List Event
  cwd : List String
  deriving DecidableEq, Repr

/-- The cleanup, directory-creation and bundling events shared by both
scripts (`assembleConfig.js` lines 55-75, `BBai-android.js` lines 67-87). -/
def prepEvents (env buildType : String) : List Event :=
  [ .loadEnv (".env." ++ env),
    .rmRf ("android/app/src/" ++ env ++ "/assets/index.android.bundle"),
    .rmRf "android/app/build",
    .mkdirP ("android/app/src/" ++ env ++ "/assets"),
    .mkdirP ("android/app/src/" ++ env ++ "/res"),
    .bundleExec (bundleCmdOf env buildType) ]

/-- The artifact selected by the directory-scan strategy of
`assembleConfig.js` lines 99-108: `none` when the output directory is
missing or holds no `.apk` file (the scripts empty-string sentinel,
which `if (!apkFile ...)` tests for), otherwise the join of the
directory with the first listed file whose name ends in `.apk`. -/
def scanApkFile (env buildType : String) (dirExists : Bool)
    (files : List String) : Option String :=
  if dirExists then
    match files.filter (fun f => strEndsWith f ".apk") with
    | [] => none
    | c :: _ => some (apkDirOf env buildType ++ "/" ++ c)
  else none

/-- Shallow embedding of `assembleConfig.js`: argument validation,
env-file check, cleanup, bundling, Gradle build (with `shell.cd` into
`android` and back out only on success), directory-scan APK lookup,
then the Bitrise deploy copy when the deploy variable is truthy (set
and non-empty, the JS `if (deployDir)` test) and the adb install
otherwise. -/
def assembleConfig (w : World) : Result :=
  if w.args.length < 1 ∨ w.args.length > 2 then
    { exitCode := 1, events := [], cwd := [] }
  else
    let env := w.args.getD 0 ""
    let buildType := buildTypeOf w.args
    if ¬ validEnvs.contains env then
      { exitCode := 1, events := [], cwd := [] }
    else if ¬ validBuildTypes.contains buildType then
      { exitCode := 1, events := [], cwd := [] }
    else if ¬ w.envFileExists then
      { exitCode := 1, events := [], cwd := [] }
    else
      let evPrep := prepEvents env buildType
      if w.bundleExit ≠ 0 then
        { exitCode := 1, events := evPrep, cwd := [] }
      else
        let gradleEv :=
          Event.gradleExec (gradleWrapper w.isWin32 ++ " " ++ assembleTaskOf env buildType)
        if w.gradleExit ≠ 0 then
          { exitCode := 1, events := evPrep ++ [gradleEv], cwd := ["android"] }
        else
          let evBuild := evPrep ++ [gradleEv]
          let apkDir := apkDirOf env buildType
          let scanEvents : List Event :=
            if w.apkDirExists then [.readDir apkDir] else []
          let evScan := evBuild ++ scanEvents
          match scanApkFile env buildType w.apkDirExists w.apkDirFiles with
          | none =>
            { exitCode := 1, events := evScan, cwd := [] }
          | some apkFile =>
            if ¬ w.apkFileExists then
              { exitCode := 1, events := evScan, cwd := [] }
            else
              if jsTruthy w.deployDir then
                let d := w.deployDir.getD ""
                let target := d ++ "/" ++ basename apkFile
                { exitCode := if w.cpExit ≠ 0 then 1 else 0,
                  events := evScan ++ [.copyFile apkFile target], cwd := [] }
              else
                { exitCode := if w.adbExit ≠ 0 then 1 else 0,
                  events := evScan ++ [.adbInstall apkFile], cwd := [] }

/-- Shallow embedding of `BBai-android.js`: identical validation,
cleanup and bundling, then `shell.cd` into `android` with no matching
`cd` back on any path, fixed-path APK lookup and the adb install. -/
def bbai (w : World) : Result :=
  if w.args.length < 1 ∨ w.args.length > 2 then
    { exitCode := 1, events := [], cwd := [] }
  else
    let env := w.args.getD 0 ""
    let buildType := buildTypeOf w.args
    if ¬ validEnvs.contains env then
      { exitCode := 1, events := [], cwd := [] }
    else if ¬ validBuildTypes.contains buildType then
      { exitCode := 1, events := [], cwd := [] }
    else if ¬ w.envFileExists then
      { exitCode := 1, events := [], cwd := [] }
    else
      let evPrep := prepEvents env buildType
      if w.bundleExit ≠ 0 then
        { exitCode := 1, events := evPrep, cwd := [] }
      else
        let gradleEv :=
          Event.gradleExec (gradleWrapper w.isWin32 ++ " " ++ assembleTaskOf env buildType)
        if w.gradleExit ≠ 0 then
          { exitCode := 1, events := evPrep ++ [gradleEv], cwd := ["android"] }
        else
          let apkPath := fixedApkPathOf env buildType
          if ¬ w.fixedApkExists then
            { exitCode := 1, events := evPrep ++ [gradleEv], cwd := ["android"] }
          else
            { exitCode := if w.adbExit ≠ 0 then 1 else 0,
              events := evPrep ++ [gradleEv, .adbInstall apkPath],
              cwd := ["android"] }

/-- Number of device-install subprocess invocations in a trace. -/
def adbCount (r : Result) : Nat :=
  (r.events.filter fun e => match e with | .adbInstall _ => true | _ => false).length

/-- Number of deploy-copy (`shell.cp`) invocations in a trace. -/
def copyCount (r : Result) : Nat :=
  (r.events.filter fun e => match e with | .copyFile _ _ => true | _ => false).length

/-- The `.apk`-suffixed entries of the scanned output directory
(`apkCandidates` in `assembleConfig.js` line 103). -/
def apkCandidatesOf (w : World) : List String :=
  w.apkDirFiles.filter (fun f => strEndsWith f ".apk")

/-- The artifact path the directory-scan variant resolves for a world,
defaulting to the empty string when no artifact is found. -/
def resolvedApk (w : World) : String :=
  (scanApkFile (w.args.getD 0 "") (buildTypeOf w.args)
      w.apkDirExists w.apkDirFiles).getD ""

/-- The CLI argument-count precondition (`args.length` within 1..2). -/
def argsCountOk (args : List String) : Prop :=
  1 ≤ args.length ∧ args.length ≤ 2

instance (args : List String) : Decidable (argsCountOk args) := by
  unfold argsCountOk
  exact inferInstance

/-- The full CLI validation both scripts perform: argument count in
range, recognized environment, recognized (normalized) build type. -/
def inputOk (w : World) : Prop :=
  argsCountOk w.args ∧
  w.args.getD 0 "" ∈ validEnvs ∧
  buildTypeOf w.args ∈ validBuildTypes

instance (w : World) : Decidable (inputOk w) := by
  unfold inputOk
  exact inferInstance

/-- Success of steps 1-7 in the directory-scan variant: valid input,
env file present, bundler and Gradle succeed, and the scan finds an
artifact that exists. -/
def steps17Ok (w : World) : Prop :=
  inputOk w ∧ w.envFileExists = true ∧ w.bundleExit = 0 ∧ w.gradleExit = 0 ∧
  w.apkDirExists = true ∧ apkCandidatesOf w ≠ [] ∧ w.apkFileExists = true

instance (w : World) : Decidable (steps17Ok w) := by
  unfold steps17Ok apkCandidatesOf
  exact inferInstance

/-- Modelled from the spec: overall success of an `assembleConfig.js`
run, as section 8 of the spec enumerates it - every step succeeds,
including the final step actually taken: the deploy copy when the CI
variable is truthy (set and non-empty), the device install otherwise.
Used to compare the code model against the spec for the exit-code
claim. -/
def specAssembleSuccess (w : World) : Prop :=
  steps17Ok w ∧
  (jsTruthy w.deployDir = true → w.cpExit = 0) ∧
  (jsTruthy w.deployDir = false → w.adbExit = 0)

instance (w : World) : Decidable (specAssembleSuccess w) := by
  unfold specAssembleSuccess
  exact inferInstance

/-- Modelled from the spec: overall success of a `BBai-android.js`
run - valid input, env file present, bundler and Gradle succeed, the
fixed-path artifact exists, and the device install succeeds. -/
def specBbaiSuccess (w : World) : Prop :=
  inputOk w ∧ w.envFileExists = true ∧ w.bundleExit = 0 ∧ w.gradleExit = 0 ∧
  w.fixedApkExists = true ∧ w.adbExit = 0

instance (w : World) : Decidable (specBbaiSuccess w) := by
  unfold specBbaiSuccess
  exact inferInstance

/-- A fully successful local-install world used as concrete witness input. -/
def wBase : World :=
  { args := ["uat", "debug"], isWin32 := false, envFileExists := true,
    bundleExit := 0, gradleExit := 0, apkDirExists := true,
    apkDirFiles := ["app-uat-debug.apk"], apkFileExists := true,
    fixedApkExists := true, deployDir := none, cpExit := 0, adbExit := 0 }

/-- World `wBase` with the CI deploy directory set. -/
def wDeploy : World := { wBase with deployDir := some "/deploy" }

/-- World `wBase` with the CI deploy variable set to the empty string. -/
def wEmptyDeploy : World := { wBase with deployDir := some "" }

/-- World `wBase` with a failing Gradle build. -/
def wGradleFail : World := { wBase with gradleExit := 1 }

/-- World `wBase` with the expected APK output directory missing. -/
def wNoDir : World := { wBase with apkDirExists := false }

/-- A world whose second CLI argument is the empty string. -/
def wEmptySecond : World := { wBase with args := ["dev", ""] }

/-- World `wBase` with the environment-configuration file absent. -/
def wNoFile : World := { wBase with envFileExists := false }

/-- A world whose first CLI argument is not a recognized environment. -/
def wBadEnv : World := { wBase with args := ["staging"] }

/-- A world whose second CLI argument is not a recognized build type. -/
def wBadType : World := { wBase with args := ["dev", "beta"] }

/-- A world whose first CLI argument is a case variant of `dev`. -/
def wCaseEnv : World := { wBase with args := ["Dev"] }

/-- A world where neither lookup strategy finds an artifact. -/
def wNoApk : World := { wBase with apkDirExists := false, fixedApkExists := false }

/-- Any failed validation (argument count, environment, build type) or a
missing environment file makes both scripts exit with code 1 before any
side effect is performed. Shared helper for the rejection claims. -/
theorem earlyExitShape (w : World)
    (h : w.args.length < 1 ∨ 2 < w.args.length ∨
         w.args.getD 0 "" ∉ validEnvs ∨
         buildTypeOf w.args ∉ validBuildTypes ∨
         w.envFileExists = false) :
    (assembleConfig w).exitCode = 1 ∧ (assembleConfig w).events = [] ∧
    (bbai w).exitCode = 1 ∧ (bbai w).events = [] := by
  obtain ⟨args, win, ef, be, ge, de, df, fe, fx, dd, cpe, ade⟩ := w
  simp only at h ⊢
  rcases args with _ | ⟨a0, args1⟩
  · simp [assembleConfig, bbai]
  rcases args1 with _ | ⟨a1, args2⟩
  · simp at h
    rcases h with h | h | h
    · simp [assembleConfig, bbai, h]
    · by_cases he : a0 ∈ validEnvs
      · simp [assembleConfig, bbai, he, h]
      · simp [assembleConfig, bbai, he]
    · by_cases he : a0 ∈ validEnvs
      · by_cases hb : buildTypeOf [a0] ∈ validBuildTypes
        · simp [assembleConfig, bbai, he, hb, h]
        · simp [assembleConfig, bbai, he, hb]
      · simp [assembleConfig, bbai, he]
  rcases args2 with _ | ⟨a2, args3⟩
  · simp at h
    rcases h with h | h | h
    · simp [assembleConfig, bbai, h]
    · by_cases he : a0 ∈ validEnvs
      · simp [assembleConfig, bbai, he, h]
      · simp [assembleConfig, bbai, he]
    · by_cases he : a0 ∈ validEnvs
      · by_cases hb : buildTypeOf [a0, a1] ∈ validBuildTypes
        · simp [assembleConfig, bbai, he, hb, h]
        · simp [assembleConfig, bbai, he, hb]
      · simp [assembleConfig, bbai, he]
  · have hlen : 2 < (a0 :: a1 :: a2 :: args3).length := by simp
    simp [assembleConfig, bbai, hlen]

/-- The exit code of the directory-scan variant is 0 exactly when the
spec-level success predicate holds, and 1 otherwise. -/
theorem assembleConfig_exit (w : World) :
    (assembleConfig w).exitCode = if specAssembleSuccess w then 0 else 1 := by
  obtain ⟨args, win, ef, be, ge, de, df, fe, fx, dd, cpe, ade⟩ := w
  simp only [specAssembleSuccess, steps17Ok, inputOk, argsCountOk, apkCandidatesOf]
  rcases args with _ | ⟨a0, args1⟩
  · simp [assembleConfig]
  by_cases hlen : 2 < args1.length + 1
  · have h2 : ¬ (args1.length + 1 ≤ 2) := by omega
    simp [assembleConfig, hlen, h2]
  have h2 : args1.length + 1 ≤ 2 := by omega
  by_cases henv : a0 ∈ validEnvs
  case neg => simp [assembleConfig, hlen, henv]
  by_cases hbt : buildTypeOf (a0 :: args1) ∈ validBuildTypes
  case neg => simp [assembleConfig, hlen, henv, hbt]
  rcases ef with _ | _
  · simp [assembleConfig, hlen, henv, hbt]
  by_cases hbe : be = 0
  case neg => simp [assembleConfig, hlen, henv, hbt, hbe]
  subst hbe
  by_cases hge : ge = 0
  case neg => simp [assembleConfig, hlen, henv, hbt, hge]
  subst hge
  rcases de with _ | _
  · simp [assembleConfig, scanApkFile, hlen, henv, hbt]
  by_cases hc : df.filter (fun f => strEndsWith f ".apk") = []
  · simp [assembleConfig, scanApkFile, hlen, henv, hbt, hc]
  obtain ⟨c, cs, hc2⟩ : ∃ c cs, df.filter (fun f => strEndsWith f ".apk") = c :: cs := by
    rcases hfl : df.filter (fun f => strEndsWith f ".apk") with _ | ⟨c, cs⟩
    · exact absurd hfl hc
    · exact ⟨c, cs, rfl⟩
  rcases fe with _ | _
  · simp [assembleConfig, scanApkFile, jsTruthy, hlen, henv, hbt, hc2]
  rcases dd with _ | d
  · simp [assembleConfig, scanApkFile, jsTruthy, hlen, h2, henv, hbt, hc2]
  · by_cases hd : d = ""
    · subst hd
      simp [assembleConfig, scanApkFile, jsTruthy, hlen, h2, henv, hbt, hc2]
    · simp [assembleConfig, scanApkFile, jsTruthy, hlen, h2, henv, hbt, hc2, hd]

/-- The exit code of the fixed-path variant is 0 exactly when the
spec-level success predicate holds, and 1 otherwise. -/
theorem bbai_exit (w : World) :
    (bbai w).exitCode = if specBbaiSuccess w then 0 else 1 := by
  obtain ⟨args, win, ef, be, ge, de, df, fe, fx, dd, cpe, ade⟩ := w
  simp only [specBbaiSuccess, inputOk, argsCountOk]
  rcases args with _ | ⟨a0, args1⟩
  · simp [bbai]
  by_cases hlen : 2 < args1.length + 1
  · have h2 : ¬ (args1.length + 1 ≤ 2) := by omega
    simp [bbai, hlen, h2]
  have h2 : args1.length + 1 ≤ 2 := by omega
  by_cases henv : a0 ∈ validEnvs
  case neg => simp [bbai, hlen, henv]
  by_cases hbt : buildTypeOf (a0 :: args1) ∈ validBuildTypes
  case neg => simp [bbai, hlen, henv, hbt]
  rcases ef with _ | _
  · simp [bbai, hlen, henv, hbt]
  by_cases hbe : be = 0
  case neg => simp [bbai, hlen, henv, hbt, hbe]
  subst hbe
  by_cases hge : ge = 0
  case neg => simp [bbai, hlen, henv, hbt, hge]
  subst hge
  rcases fx with _ | _
  · simp [bbai, hlen, henv, hbt]
  simp [bbai, hlen, h2, henv, hbt]

/-- C1 (amended): when steps 1-7 succeed in the directory-scan
variant, a CI deploy variable set to a non-empty string makes the
script copy the artifact to deployDir/basename with no device install,
while an unset or empty-string deploy variable (JS truthiness) makes
it invoke the device install exactly once with the resolved artifact
path and perform no copy; the fixed-path variant invokes the device
install exactly once with its fixed artifact path regardless of the
variable. -/
theorem C1_deploy_copy_or_device_install (w : World) (h : steps17Ok w) :
    (∀ d, w.deployDir = some d → d ≠ "" →
        Event.copyFile (resolvedApk w) (d ++ "/" ++ basename (resolvedApk w))
            ∈ (assembleConfig w).events ∧
        adbCount (assembleConfig w) = 0) ∧
    (jsTruthy w.deployDir = false →
        adbCount (assembleConfig w) = 1 ∧
        Event.adbInstall (resolvedApk w) ∈ (assembleConfig w).events ∧
        copyCount (assembleConfig w) = 0) ∧
    (w.fixedApkExists = true →
        adbCount (bbai w) = 1 ∧
        Event.adbInstall (fixedApkPathOf (w.args.getD 0 "") (buildTypeOf w.args))
            ∈ (bbai w).events) := by
  obtain ⟨⟨⟨hl1, hl2⟩, henv, hbt⟩, hef, hbd, hg, hdir, hcand, hx⟩ := h
  obtain ⟨args, win, ef, be, ge, de, df, fe, fx, dd, cpe, ade⟩ := w
  simp only [apkCandidatesOf] at *
  subst hef hbd hg hdir hx
  rcases args with _ | ⟨a0, args1⟩
  · simp at hl1
  have hlen : ¬ 2 < args1.length + 1 := by simp at hl2; omega
  have henv2 : a0 ∈ validEnvs := by simpa using henv
  rcases hc : df.filter (fun f => strEndsWith f ".apk") with _ | ⟨c, cs⟩
  · rw [hc] at hcand; exact absurd rfl hcand
  refine ⟨?_, ?_, ?_⟩
  · rintro d rfl hd
    simp [assembleConfig, resolvedApk, scanApkFile, adbCount, prepEvents, jsTruthy,
      hc, henv2, hbt, hlen, hd]
  · intro hfalse
    rcases dd with _ | d
    · simp [assembleConfig, resolvedApk, scanApkFile, adbCount, copyCount, prepEvents,
        jsTruthy, hc, henv2, hbt, hlen]
    · have hd : d = "" := by
        by_contra hd2
        simp [jsTruthy, hd2] at hfalse
      subst hd
      simp [assembleConfig, resolvedApk, scanApkFile, adbCount, copyCount, prepEvents,
        jsTruthy, hc, henv2, hbt, hlen]
  · intro hfx
    subst hfx
    simp [bbai, adbCount, prepEvents, henv2, hbt, hlen]

/-- Counterexample to C1 as stated: with the CI deploy variable SET to
the empty string, a fully successful run still performs the device
install and no deploy copy and exits 0, because the source tests JS
truthiness of the variable, not its presence. -/
theorem C1_counterexample :
    wEmptyDeploy.deployDir = some "" ∧
    steps17Ok wEmptyDeploy ∧
    adbCount (assembleConfig wEmptyDeploy) = 1 ∧
    copyCount (assembleConfig wEmptyDeploy) = 0 ∧
    (assembleConfig wEmptyDeploy).exitCode = 0 :=
  ⟨rfl, by decide, by decide, by decide, rfl⟩

/-- Witness for the amended C1 at a concrete deploy world and a
concrete install world, for both variants. -/
theorem C1_witness :
    steps17Ok wDeploy ∧ steps17Ok wBase ∧
    (Event.copyFile (resolvedApk wDeploy) ("/deploy" ++ "/" ++ basename (resolvedApk wDeploy))
        ∈ (assembleConfig wDeploy).events ∧
      adbCount (assembleConfig wDeploy) = 0) ∧
    (adbCount (assembleConfig wBase) = 1 ∧
      Event.adbInstall (resolvedApk wBase) ∈ (assembleConfig wBase).events ∧
      copyCount (assembleConfig wBase) = 0) ∧
    (adbCount (bbai wBase) = 1 ∧
      Event.adbInstall (fixedApkPathOf (wBase.args.getD 0 "") (buildTypeOf wBase.args))
          ∈ (bbai wBase).events) :=
  ⟨by decide, by decide,
    (C1_deploy_copy_or_device_install wDeploy (by decide)).1 "/deploy" rfl (by decide),
    (C1_deploy_copy_or_device_install wBase (by decide)).2.1 rfl,
    (C1_deploy_copy_or_device_install wBase (by decide)).2.2 rfl⟩

/-- C2: evidence that the working directory is NOT restored on every
exit path after the native-build step. In the directory-scan variant a
failing Gradle build exits with the working directory still inside
`android`; the fixed-path variant never changes back even on full
success; only the successful directory-scan path restores it. -/
theorem C2_workdir_not_restored :
    (assembleConfig wGradleFail).exitCode = 1 ∧
    (assembleConfig wGradleFail).cwd = ["android"] ∧
    (bbai wBase).exitCode = 0 ∧ (bbai wBase).cwd = ["android"] ∧
    (assembleConfig wBase).exitCode = 0 ∧ (assembleConfig wBase).cwd = [] :=
  ⟨rfl, rfl, rfl, rfl, rfl, rfl⟩

/-- C3: an invocation whose first positional argument is not one of the
valid environments exits with code 1 with no filesystem mutation and no
subprocess invocation (an empty event trace), in both variants. -/
theorem C3_invalid_env_no_side_effects (w : World) (e : String) (rest : List String)
    (hargs : w.args = e :: rest) (henv : e ∉ validEnvs) :
    (assembleConfig w).exitCode = 1 ∧ (assembleConfig w).events = [] ∧
    (bbai w).exitCode = 1 ∧ (bbai w).events = [] :=
  earlyExitShape w (Or.inr (Or.inr (Or.inl (by rw [hargs]; simpa using henv))))

/-- Witness for C3 at the concrete invalid environment `staging`. -/
theorem C3_witness :
    "staging" ∉ validEnvs ∧
    (assembleConfig wBadEnv).exitCode = 1 ∧ (assembleConfig wBadEnv).events = [] ∧
    (bbai wBadEnv).exitCode = 1 ∧ (bbai wBadEnv).events = [] :=
  ⟨by decide, C3_invalid_env_no_side_effects wBadEnv "staging" [] rfl (by decide)⟩

/-- C4 (amended): the effective build type is the lowercased second
argument when that is a recognized build type, defaults to release when
the second argument is absent or is the empty string, and any other
value makes both scripts exit 1 with no side effects. -/
theorem C4_build_type_normalization (w : World)
    (h : buildTypeOf w.args ∉ validBuildTypes) :
    (assembleConfig w).exitCode = 1 ∧ (assembleConfig w).events = [] ∧
    (bbai w).exitCode = 1 ∧ (bbai w).events = [] ∧
    buildTypeOf ["dev"] = "release" ∧
    buildTypeOf ["dev", ""] = "release" ∧
    buildTypeOf ["dev", "DEBUG"] = "debug" ∧
    buildTypeOf ["uat", "Release"] = "release" := by
  have he := earlyExitShape w (Or.inr (Or.inr (Or.inr (Or.inl h))))
  exact ⟨he.1, he.2.1, he.2.2.1, he.2.2.2, by decide, by decide, by decide, by decide⟩

/-- Witness for the amended C4 at the concrete invalid build type `beta`. -/
theorem C4_witness :
    buildTypeOf wBadType.args ∉ validBuildTypes ∧
    (assembleConfig wBadType).exitCode = 1 ∧ (assembleConfig wBadType).events = [] :=
  ⟨by decide, (C4_build_type_normalization wBadType (by decide)).1,
    (C4_build_type_normalization wBadType (by decide)).2.1⟩

/-- Counterexample to C4 as stated: with an explicit empty-string
second argument the lowercased second argument is neither release nor
debug, yet the script does not exit non-zero before the subprocesses;
it runs to completion with exit code 0 (JS || treats the empty string
as absent). -/
theorem C4_counterexample :
    wEmptySecond.args = ["dev", ""] ∧
    jsToLower "" ∉ validBuildTypes ∧
    (assembleConfig wEmptySecond).exitCode = 0 ∧
    (assembleConfig wEmptySecond).events ≠ [] :=
  ⟨rfl, by decide, rfl, by decide⟩

/-- C5: a valid invocation whose environment-configuration file is
absent exits with code 1 before any cleanup deletion, directory
creation, bundler or native-build invocation (empty event trace). -/
theorem C5_missing_env_aborts (w : World)
    (h : inputOk w) (hef : w.envFileExists = false) :
    (assembleConfig w).exitCode = 1 ∧ (assembleConfig w).events = [] ∧
    (bbai w).exitCode = 1 ∧ (bbai w).events = [] :=
  earlyExitShape w (Or.inr (Or.inr (Or.inr (Or.inr hef))))

/-- Witness for C5 at a concrete world with the env file absent. -/
theorem C5_witness :
    inputOk wNoFile ∧
    (assembleConfig wNoFile).exitCode = 1 ∧ (assembleConfig wNoFile).events = [] ∧
    (bbai wNoFile).exitCode = 1 ∧ (bbai wNoFile).events = [] :=
  ⟨by decide, C5_missing_env_aborts wNoFile (by decide) rfl⟩

/-- C6: any run reaching the native-build step invokes Gradle with the
task name built as the fixed prefix plus the capitalized environment
plus the capitalized build type; for (uat, debug) that is
assembleUatDebug with the bundler debug flag true, and for (prod) with
build type omitted it is assembleProdRelease. -/
theorem C6_gradle_task_name (w : World)
    (h : inputOk w) (hef : w.envFileExists = true) (hb : w.bundleExit = 0) :
    (Event.gradleExec (gradleWrapper w.isWin32 ++ " " ++
        ("assemble" ++ capitalize (w.args.getD 0 "") ++ capitalize (buildTypeOf w.args)))
      ∈ (assembleConfig w).events ∧
     Event.gradleExec (gradleWrapper w.isWin32 ++ " " ++
        ("assemble" ++ capitalize (w.args.getD 0 "") ++ capitalize (buildTypeOf w.args)))
      ∈ (bbai w).events) ∧
    assembleTaskOf "uat" "debug" = "assembleUatDebug" ∧
    isDevFlag "debug" = true ∧
    buildTypeOf ["prod"] = "release" ∧
    assembleTaskOf "prod" (buildTypeOf ["prod"]) = "assembleProdRelease" ∧
    apkDirOf "uat" "debug" = "android/app/build/outputs/apk/uat/debug" := by
  obtain ⟨⟨hl1, hl2⟩, henv, hbt⟩ := h
  obtain ⟨args, win, ef, be, ge, de, df, fe, fx, dd, cpe, ade⟩ := w
  simp only at *
  subst hef hb
  rcases args with _ | ⟨a0, args1⟩
  · simp at hl1
  have hlen : ¬ 2 < args1.length + 1 := by simp at hl2; omega
  have henv2 : a0 ∈ validEnvs := by simpa using henv
  refine ⟨⟨?_, ?_⟩, by decide, by decide, by decide, by decide, by decide⟩
  · by_cases hg : ge = 0
    · by_cases hde : de = true
      · rcases hc : df.filter (fun f => strEndsWith f ".apk") with _ | ⟨c, cs⟩
        · simp [assembleConfig, scanApkFile, prepEvents, assembleTaskOf, hlen, henv2, hbt, hg, hde, hc]
        · by_cases hfe : fe = true
          · rcases dd with _ | d <;>
              simp [assembleConfig, scanApkFile, prepEvents, assembleTaskOf, jsTruthy,
                hlen, henv2, hbt, hg, hde, hc, hfe] <;>
              split_ifs <;> simp
          · simp [assembleConfig, scanApkFile, prepEvents, assembleTaskOf, hlen, henv2, hbt, hg, hde, hc, hfe]
      · simp [assembleConfig, scanApkFile, prepEvents, assembleTaskOf, hlen, henv2, hbt, hg, hde]
    · simp [assembleConfig, prepEvents, assembleTaskOf, hlen, henv2, hbt, hg]
  · by_cases hg : ge = 0
    · by_cases hfx : fx = true
      · simp [bbai, prepEvents, assembleTaskOf, hlen, henv2, hbt, hg, hfx]
      · simp [bbai, prepEvents, assembleTaskOf, hlen, henv2, hbt, hg, hfx]
    · simp [bbai, prepEvents, assembleTaskOf, hlen, henv2, hbt, hg]

/-- Witness for C6 at the concrete (uat, debug) world. -/
theorem C6_witness :
    inputOk wBase ∧
    Event.gradleExec (gradleWrapper wBase.isWin32 ++ " " ++
        ("assemble" ++ capitalize (wBase.args.getD 0 "") ++ capitalize (buildTypeOf wBase.args)))
      ∈ (assembleConfig wBase).events :=
  ⟨by decide, (C6_gradle_task_name wBase (by decide) rfl rfl).1.1⟩

/-- C7: in both variants the exit code is 0 exactly when every step
succeeds (as captured by the spec-level success predicates) and is 1 in
every other case - every validation failure, missing-file check or
non-zero subprocess result leads to exit code 1, never any other value. -/
theorem C7_exit_code_iff_success (w : World) :
    ((assembleConfig w).exitCode = 0 ↔ specAssembleSuccess w) ∧
    ((assembleConfig w).exitCode = 0 ∨ (assembleConfig w).exitCode = 1) ∧
    ((bbai w).exitCode = 0 ↔ specBbaiSuccess w) ∧
    ((bbai w).exitCode = 0 ∨ (bbai w).exitCode = 1) := by
  rw [assembleConfig_exit, bbai_exit]
  refine ⟨?_, ?_, ?_, ?_⟩ <;> split_ifs <;> simp_all

/-- C8: the directory-scan strategy resolves the first listed file with
the .apk extension, the fixed-path strategy checks the predictable
redone-env-buildType.apk name, and in either strategy a missing
artifact makes the run exit with code 1. -/
theorem C8_artifact_lookup (w : World)
    (h : inputOk w) (hef : w.envFileExists = true)
    (hb : w.bundleExit = 0) (hg : w.gradleExit = 0) :
    (∀ c cs, apkCandidatesOf w = c :: cs →
        scanApkFile (w.args.getD 0 "") (buildTypeOf w.args) true w.apkDirFiles
          = some (apkDirOf (w.args.getD 0 "") (buildTypeOf w.args) ++ "/" ++ c)) ∧
    fixedApkPathOf "uat" "debug" = "app/build/outputs/apk/uat/debug/redone-uat-debug.apk" ∧
    (scanApkFile (w.args.getD 0 "") (buildTypeOf w.args) w.apkDirExists w.apkDirFiles = none →
        (assembleConfig w).exitCode = 1) ∧
    (w.fixedApkExists = false → (bbai w).exitCode = 1) := by
  obtain ⟨⟨hl1, hl2⟩, henv, hbt⟩ := h
  obtain ⟨args, win, ef, be, ge, de, df, fe, fx, dd, cpe, ade⟩ := w
  simp only [apkCandidatesOf] at *
  subst hef hb hg
  rcases args with _ | ⟨a0, args1⟩
  · simp at hl1
  have hlen : ¬ 2 < args1.length + 1 := by simp at hl2; omega
  have henv2 : a0 ∈ validEnvs := by simpa using henv
  refine ⟨?_, by decide, ?_, ?_⟩
  · intro c cs hcc
    simp [scanApkFile, hcc]
  · intro hsc
    simp only [List.getD_eq_getElem?_getD, List.getElem?_cons_zero, Option.getD_some] at hsc
    simp [assembleConfig, hlen, henv2, hbt, hsc]
  · intro hfx
    simp [bbai, hlen, henv2, hbt, hfx]

/-- Witness for C8 at a concrete world where both strategies miss. -/
theorem C8_witness :
    inputOk wNoApk ∧
    (assembleConfig wNoApk).exitCode = 1 ∧ (bbai wNoApk).exitCode = 1 :=
  ⟨by decide,
    (C8_artifact_lookup wNoApk (by decide) rfl rfl rfl).2.2.1 rfl,
    (C8_artifact_lookup wNoApk (by decide) rfl rfl rfl).2.2.2 rfl⟩

/-- C9: the environment argument is matched exactly, with no case
normalization: a case variant of a valid environment that is not
literally dev, uat or prod is rejected with exit 1 and no side effects,
while the build-type argument IS lowercased before validation. -/
theorem C9_env_case_sensitive (w : World) (e : String) (rest : List String)
    (hargs : w.args = e :: rest)
    (hcase : jsToLower e ∈ validEnvs) (hne : e ∉ validEnvs) :
    (assembleConfig w).exitCode = 1 ∧ (assembleConfig w).events = [] ∧
    (bbai w).exitCode = 1 ∧ (bbai w).events = [] ∧
    ("Dev" ∉ validEnvs ∧ "UAT" ∉ validEnvs ∧ "Prod" ∉ validEnvs) ∧
    buildTypeOf ["dev", "DEBUG"] = "debug" := by
  have he := earlyExitShape w (Or.inr (Or.inr (Or.inl (by rw [hargs]; simpa using hne))))
  exact ⟨he.1, he.2.1, he.2.2.1, he.2.2.2, by decide, by decide⟩

/-- Witness for C9 at the concrete case variant `Dev`. -/
theorem C9_witness :
    jsToLower "Dev" ∈ validEnvs ∧ "Dev" ∉ validEnvs ∧
    (assembleConfig wCaseEnv).exitCode = 1 ∧ (assembleConfig wCaseEnv).events = [] :=
  ⟨by decide, by decide,
    (C9_env_case_sensitive wCaseEnv "Dev" [] rfl (by decide) (by decide)).1,
    (C9_env_case_sensitive wCaseEnv "Dev" [] rfl (by decide) (by decide)).2.1⟩

/-- C10: the directory listing of the artifact scan only ever happens
when the output directory exists (the readDir event implies the
existence test succeeded), and when the directory is missing the run
deterministically exits with code 1 instead of crashing. -/
theorem C10_scan_guarded_by_existence (w : World) :
    (∀ p, Event.readDir p ∈ (assembleConfig w).events → w.apkDirExists = true) ∧
    (inputOk w → w.envFileExists = true → w.bundleExit = 0 → w.gradleExit = 0 →
      w.apkDirExists = false → (assembleConfig w).exitCode = 1) := by
  obtain ⟨args, win, ef, be, ge, de, df, fe, fx, dd, cpe, ade⟩ := w
  constructor
  · intro p hp
    by_contra hde
    have hde2 : de = false := by simpa using hde
    subst hde2
    revert hp
    simp [assembleConfig, scanApkFile, prepEvents]
    split_ifs <;> simp
  · rintro ⟨⟨hl1, hl2⟩, henv, hbt⟩ hef hb hg hde
    simp only at *
    subst hef hb hg hde
    rcases args with _ | ⟨a0, args1⟩
    · simp at hl1
    have hlen : ¬ 2 < args1.length + 1 := by simp at hl2; omega
    have henv2 : a0 ∈ validEnvs := by simpa using henv
    simp [assembleConfig, scanApkFile, hlen, henv2, hbt]

/-- Witness for C10 at a concrete world with the output directory missing. -/
theorem C10_witness :
    inputOk wNoDir ∧ (assembleConfig wNoDir).exitCode = 1 :=
  ⟨by decide,
    (C10_scan_guarded_by_existence wNoDir).2 (by decide) rfl rfl rfl rfl⟩

end RNBuild
